import Mathlib

/-!
Verification development for the copy-trading service.

This file gives a shallow embedding, in Lean 4, of the core of the
repository:

* `parseTradeTimestamp`, `fetchWithRetry` and the trade-mapping tail of
  `getMasterTrades` from `src/lib/alice.ts`;
* the deduplicate-and-sort tail of `fetchTrades` from the dashboard
  trades table component;
* the `POST` handler of `src/app/api/followers/execute-copy-trade/route.ts`
  (validation, per-follower loop, duplicate ledger, broker call, result
  aggregation).

JavaScript machine details are embedded as follows: instants are integer
milliseconds since the Unix epoch (`Int`); the process-local timezone of
`new Date(year, month, ...)` and of zone-less date-time strings is an
explicit parameter (`tzOffsetMs`, the amount local time is ahead of UTC);
the current clock (used only by the `HH:MM[:SS]` branch) is an explicit
parameter `nowMs`; JSON numbers are modelled as integers and numeric
strings by the plain decimal subset of `Number(...)`; `Date.parse` is
modelled by its specified ISO-8601 subset (implementation-defined lenient
formats are out of scope).  Database tables are lists of rows and the
broker is a deterministic oracle from follower id to outcome.
-/

/-! ## Small JavaScript string helpers -/

/-- ASCII whitespace recognised by the embedding of `String.prototype.trim`
and the regex class `\s` (the Unicode space classes are out of scope). -/
def isJsWs (c : Char) : Bool :=
  c = ' ' || c = '\t' || c = '\n' || c = '\r' || c = '\x0b' || c = '\x0c'

/-- Embedding of `String.prototype.trim` (ASCII whitespace). -/
def jsTrim (s : String) : String :=
  String.mk (((s.data.dropWhile isJsWs).reverse.dropWhile isJsWs).reverse)

/-- Char list entirely made of decimal digits? -/
def allDigits (cs : List Char) : Bool := cs.all (·.isDigit)

/-- Value of a list of decimal digit characters. -/
def digitsToNat (cs : List Char) : Nat :=
  cs.foldl (fun acc c => acc * 10 + (c.toNat - '0'.toNat)) 0

/-- Take exactly `n` decimal digits from the front of a char list,
returning their value and the rest. -/
def takeDigits : Nat → List Char → Option (Nat × List Char)
  | 0, cs => some (0, cs)
  | _ + 1, [] => none
  | n + 1, c :: cs =>
    if c.isDigit then
      match takeDigits n cs with
      | some (v, rest) => some ((c.toNat - '0'.toNat) * 10 ^ n + v, rest)
      | none => none
    else none

/-- Take one or more leading decimal digits (greedy), returning the digit
characters and the rest; `none` if there is no leading digit. -/
def takeDigits1 (cs : List Char) : Option (List Char × List Char) :=
  let ds := cs.takeWhile (·.isDigit)
  if ds.isEmpty then none else some (ds, cs.drop ds.length)

/-- Decimal rendering of an integer, as JavaScript `Number.prototype.toString`
renders integral values. -/
def intStr (i : Int) : String :=
  if i < 0 then "-" ++ Nat.repr i.natAbs else Nat.repr i.natAbs

/-- An exact decimal value `mant / 10 ^ scale`, the result type of the
embedding of `Number(...)`.  Kept unnormalised so that every operation on
it is plain integer arithmetic. -/
structure DecNum where
  mant : Int
  scale : Nat
deriving DecidableEq

/-- Embedding of `Number(s)` on an already-trimmed, non-empty string, for
the plain decimal subset: optional sign, then digits, an optional point
and optional fraction digits (at least one digit overall).  Hexadecimal,
exponent and `Infinity` forms are out of scope; on them the embedding
answers `none` (= `NaN`). -/
def jsNumber (s : String) : Option DecNum :=
  let cs := s.data
  let (sign, cs) : Int × List Char :=
    match cs with
    | '-' :: rest => (-1, rest)
    | '+' :: rest => (1, rest)
    | _ => (1, cs)
  let intPart := cs.takeWhile (·.isDigit)
  let afterInt := cs.drop intPart.length
  match afterInt with
  | [] =>
    if intPart.isEmpty then none
    else some ⟨sign * (digitsToNat intPart : Int), 0⟩
  | '.' :: fracRest =>
    let fracPart := fracRest.takeWhile (·.isDigit)
    let afterFrac := fracRest.drop fracPart.length
    if afterFrac.isEmpty && !(intPart.isEmpty && fracPart.isEmpty) then
      some ⟨sign * ((digitsToNat intPart : Int) * 10 ^ fracPart.length +
        (digitsToNat fracPart : Int)), fracPart.length⟩
    else none
  | _ => none

/-! ## Proleptic Gregorian calendar and `Date.prototype.toISOString` -/

/-- Days since 1970-01-01 of the civil date `(y, m, d)` (month 1-12; the
day may overflow, extra days simply add on), by the standard civil
calendar algorithm with floor division. -/
def daysFromCivil (y m d : Int) : Int :=
  let y2 := if m ≤ 2 then y - 1 else y
  let era := Int.fdiv y2 400
  let yoe := y2 - era * 400
  let mp := Int.emod (m + 9) 12
  let doy := Int.fdiv (153 * mp + 2) 5 + d - 1
  let doe := yoe * 365 + Int.fdiv yoe 4 - Int.fdiv yoe 100 + doy
  era * 146097 + doe - 719468

/-- Civil date `(y, m, d)` of a count of days since 1970-01-01 (inverse of
`daysFromCivil` on normalised dates). -/
def civilFromDays (z0 : Int) : Int × Int × Int :=
  let z := z0 + 719468
  let era := Int.fdiv z 146097
  let doe := z - era * 146097
  let yoe := Int.fdiv (doe - Int.fdiv doe 1460 + Int.fdiv doe 36524 - Int.fdiv doe 146096) 365
  let y := yoe + era * 400
  let doy := doe - (365 * yoe + Int.fdiv yoe 4 - Int.fdiv yoe 100)
  let mp := Int.fdiv (5 * doy + 2) 153
  let d := doy - Int.fdiv (153 * mp + 2) 5 + 1
  let m := mp + (if mp < 10 then 3 else -9)
  (if m ≤ 2 then y + 1 else y, m, d)

/-- Number of days in a month of the Gregorian calendar. -/
def daysInMonth (y m : Int) : Int :=
  if m = 2 then
    if Int.emod y 4 = 0 && (Int.emod y 100 ≠ 0 || Int.emod y 400 = 0) then 29 else 28
  else if m = 4 || m = 6 || m = 9 || m = 11 then 30
  else 31

/-- Largest time value accepted by a JavaScript `Date`
(8.64e15 ms, i.e. ±100 000 000 days around the epoch). -/
def maxDateMs : Int := 8640000000000000

/-- Left-pad the decimal rendering of a natural number to `w` digits. -/
def padNat (w : Nat) (n : Nat) : String :=
  let r := Nat.repr n
  String.mk (List.replicate (w - r.length) '0') ++ r

/-- Year field of an ISO string as produced by `toISOString`: four digits
for 0-9999, else the expanded `±YYYYYY` form. -/
def isoYearStr (y : Int) : String :=
  if 0 ≤ y && y ≤ 9999 then padNat 4 y.toNat
  else (if y < 0 then "-" else "+") ++ padNat 6 y.natAbs

/-- Embedding of `Date.prototype.toISOString` on a time value in
milliseconds since the epoch. -/
def toISOString (ms : Int) : String :=
  let days := Int.fdiv ms 86400000
  let msOfDay := ms - days * 86400000
  let ymd := civilFromDays days
  let h := Int.fdiv msOfDay 3600000
  let mi := Int.emod (Int.fdiv msOfDay 60000) 60
  let s := Int.emod (Int.fdiv msOfDay 1000) 60
  let milli := Int.emod msOfDay 1000
  isoYearStr ymd.1 ++ "-" ++ padNat 2 ymd.2.1.toNat ++ "-" ++ padNat 2 ymd.2.2.toNat ++
    "T" ++ padNat 2 h.toNat ++ ":" ++ padNat 2 mi.toNat ++ ":" ++ padNat 2 s.toNat ++
    "." ++ padNat 3 milli.toNat ++ "Z"

example : toISOString 0 = "1970-01-01T00:00:00.000Z" := by decide
example : daysFromCivil 2024 2 10 = 19763 := by decide
example : toISOString (daysFromCivil 2024 2 10 * 86400000 + 9 * 3600000 + 45000) =
    "2024-02-10T09:00:45.000Z" := by decide

/-! ## `Date.parse` (ISO-8601 subset) -/

/-- Parse `HH:MM[:SS[.f+]]` followed by an optional offset
(`Z` or `±HH:MM`), returning the time of day in milliseconds and the
offset in milliseconds (`none` = no offset, i.e. local time). -/
def parseTimePart (cs : List Char) : Option (Int × Option Int) :=
  match takeDigits 2 cs with
  | none => none
  | some (h, rest) =>
    if h > 23 then none else
    match rest with
    | ':' :: rest2 =>
      match takeDigits 2 rest2 with
      | none => none
      | some (mi, rest3) =>
        if mi > 59 then none else
        let withSec : Option (Int × List Char) :=
          match rest3 with
          | ':' :: rest4 =>
            match takeDigits 2 rest4 with
            | none => none
            | some (s, rest5) =>
              if s > 59 then none else
              match rest5 with
              | '.' :: rest6 =>
                match takeDigits1 rest6 with
                | none => none
                | some (ds, rest7) =>
                  let milli := digitsToNat ((ds ++ ['0', '0', '0']).take 3)
                  some ((s * 1000 + milli : Int), rest7)
              | _ => some ((s * 1000 : Int), rest5)
          | _ => some (0, rest3)
        match withSec with
        | none => none
        | some (secMs, restT) =>
          let tod : Int := (h * 3600000 : Int) + (mi * 60000 : Int) + secMs
          match restT with
          | [] => some (tod, none)
          | ['Z'] => some (tod, some 0)
          | sgn :: offRest =>
            if sgn = '+' || sgn = '-' then
              match takeDigits 2 offRest with
              | none => none
              | some (oh, [':', m1, m2]) =>
                if m1.isDigit && m2.isDigit then
                  let om := digitsToNat [m1, m2]
                  let off : Int := (oh * 3600000 : Int) + (om * 60000 : Int)
                  some (tod, some (if sgn = '-' then -off else off))
                else none
              | some (_, _) => none
            else none
    | _ => none

/-- Embedding of `Date.parse`' s specified ISO-8601 date-time format:
`YYYY`, `YYYY-MM`, `YYYY-MM-DD`, each optionally followed by
`THH:MM[:SS[.f+]]` and an optional offset.  A date-time without offset is
interpreted in local time (`tzOffsetMs` ahead of UTC), a bare date in UTC.
Out-of-range components and times beyond ±8.64e15 ms answer `none`
(= invalid date).  Implementation-defined lenient formats are out of
scope of the embedding. -/
def jsDateParse (tzOffsetMs : Int) (s : String) : Option Int :=
  let cs := s.data
  let core : Option (Int × Int × Int × List Char) :=
    match takeDigits 4 cs with
    | none => none
    | some (y, rest) =>
      match rest with
      | '-' :: rest2 =>
        match takeDigits 2 rest2 with
        | none => none
        | some (mo, rest3) =>
          if mo < 1 || mo > 12 then none else
          match rest3 with
          | '-' :: rest4 =>
            match takeDigits 2 rest4 with
            | none => none
            | some (d, rest5) =>
              if d < 1 || (d : Int) > daysInMonth y mo then none
              else some ((y : Int), (mo : Int), (d : Int), rest5)
          | _ => some ((y : Int), (mo : Int), 1, rest3)
      | _ => some ((y : Int), 1, 1, rest)
  match core with
  | none => none
  | some (y, mo, d, rest) =>
    let base := daysFromCivil y mo d * 86400000
    let clip : Int → Option Int := fun ms =>
      if ms.natAbs ≤ maxDateMs.toNat then some ms else none
    match rest with
    | [] => clip base
    | 'T' :: timeCs =>
      match parseTimePart timeCs with
      | none => none
      | some (tod, some off) => clip (base + tod - off)
      | some (tod, none) => clip (base + tod - tzOffsetMs)
    | _ => none

example : jsDateParse 0 "1970-01-01T00:00:00Z" = some 0 := by decide
example : jsDateParse 0 "2024-02-10T14:30:45.123+05:30" =
    some (19763 * 86400000 + 9 * 3600000 + 45123) := by decide
example : jsDateParse 0 "garbage" = none := by decide
example : jsDateParse 0 "1707565845" = none := by decide

/-! ## `parseTradeTimestamp` (src/lib/alice.ts) -/

/-- A JSON-ish field value as handled by the normalizer: a string, an
integral number, or `null`.  (Fractional JSON numbers do not occur in the
vendor payloads and are out of scope.) -/
inductive JsVal where
  | str (s : String)
  | num (i : Int)
  | null
deriving DecidableEq

/-- A raw vendor record: an association list from field name to value.
An absent key models an `undefined` property. -/
def RawRecord := List (String × JsVal)

/-- Property access `d.k`. -/
def getField (d : RawRecord) (k : String) : Option JsVal :=
  match d.find? (fun p => p.1 = k) with
  | some p => some p.2
  | none => none

/-- `candidate.value.toString()`. -/
def jsValToString : JsVal → String
  | .str s => s
  | .num i => intStr i
  | .null => "null"

/-- The priority-ordered candidate field names of `parseTradeTimestamp`
(source lines 34-65). -/
def candidateKeys : List String :=
  ["FillTime", "fillTime", "FILL_TIME",
   "exchangeTimestamp", "ExchangeTimestamp", "exchange_timestamp", "Exch_Timestamp",
   "TradedTime", "tradedTime", "Ttime",
   "OrderTime", "orderTime", "OrderCreateTime", "CreatedTime", "UpdatedTime",
   "time", "Time", "timestamp", "Timestamp", "tradeTime", "executionTime"]

/-- Match of the regex `^\d{4}-\d{2}-\d{2}\s\d{1,2}:\d{2}:\d{2}$` together
with the component extraction the source performs by `split(' ')` /
`split('-')` / `split(':')` and `parseInt`.  The source splits on a
literal space, so a match whose `\s` is another whitespace character
throws inside the `try` and falls through; the embedding answers `none`
there as well. -/
def istExtract (cs : List Char) : Option (Nat × Nat × Nat × Nat × Nat × Nat) :=
  match cs with
  | [y1, y2, y3, y4, '-', m1, m2, '-', d1, d2, ' ', h1, h2, ':', i1, i2, ':', s1, s2] =>
    if allDigits [y1, y2, y3, y4, m1, m2, d1, d2, h1, h2, i1, i2, s1, s2] then
      some (digitsToNat [y1, y2, y3, y4], digitsToNat [m1, m2], digitsToNat [d1, d2],
            digitsToNat [h1, h2], digitsToNat [i1, i2], digitsToNat [s1, s2])
    else none
  | [y1, y2, y3, y4, '-', m1, m2, '-', d1, d2, ' ', h1, ':', i1, i2, ':', s1, s2] =>
    if allDigits [y1, y2, y3, y4, m1, m2, d1, d2, h1, i1, i2, s1, s2] then
      some (digitsToNat [y1, y2, y3, y4], digitsToNat [m1, m2], digitsToNat [d1, d2],
            digitsToNat [h1], digitsToNat [i1, i2], digitsToNat [s1, s2])
    else none
  | _ => none

/-- Time value of `new Date(year, month-1, day, hour, minute, second)`:
the civil components are read in the process-local timezone
(`tzOffsetMs` ahead of UTC), years 0-99 map to 1900-1999, and month /
day / time overflow normalises.  `month` here is the 1-based value the
source passes as `month - 1`. -/
def jsDateCtorMs (tzOffsetMs y mo d h mi s : Int) : Int :=
  let y2 := if 0 ≤ y && y ≤ 99 then y + 1900 else y
  let ym := y2 + Int.fdiv (mo - 1) 12
  let mm := Int.emod (mo - 1) 12 + 1
  daysFromCivil ym mm d * 86400000 + h * 3600000 + mi * 60000 + s * 1000 - tzOffsetMs

/-- The fixed IST offset the source subtracts (`5.5 * 60 * 60 * 1000`). -/
def istOffsetMs : Int := 19800000

/-- Environment of the embedding: the process-local timezone offset (ms
ahead of UTC, constant — daylight-saving shifts are out of scope) and the
current clock in ms (used only by the `HH:MM[:SS]` branch). -/
structure TsEnv where
  tzOffsetMs : Int
  nowMs : Int
deriving DecidableEq

/-- Match of `^\d{1,2}:\d{2}(?::\d{2})?$` with component extraction. -/
def timeOnlyExtract (cs : List Char) : Option (Nat × Nat × Nat) :=
  match cs with
  | [h1, ':', i1, i2] =>
    if allDigits [h1, i1, i2] then
      some (digitsToNat [h1], digitsToNat [i1, i2], 0) else none
  | [h1, h2, ':', i1, i2] =>
    if allDigits [h1, h2, i1, i2] then
      some (digitsToNat [h1, h2], digitsToNat [i1, i2], 0) else none
  | [h1, ':', i1, i2, ':', s1, s2] =>
    if allDigits [h1, i1, i2, s1, s2] then
      some (digitsToNat [h1], digitsToNat [i1, i2], digitsToNat [s1, s2]) else none
  | [h1, h2, ':', i1, i2, ':', s1, s2] =>
    if allDigits [h1, h2, i1, i2, s1, s2] then
      some (digitsToNat [h1, h2], digitsToNat [i1, i2], digitsToNat [s1, s2]) else none
  | _ => none

/-- One candidate value run through the four format attempts of
`parseTradeTimestamp` (source lines 67-152): the `YYYY-MM-DD HH:MM:SS`
branch, the `new Date(val)` branch, the positive Unix number branch with
the `> 9999999999` milliseconds-vs-seconds heuristic, and the
`HH:MM[:SS]` today-at-IST branch.  Answers the ISO string of the first
attempt that succeeds, `none` when the candidate is skipped or no attempt
succeeds. -/
def parseCandidateValue (env : TsEnv) (v : JsVal) : Option String :=
  if v = .null || v = .str "" then none else
  let val := jsTrim (jsValToString v)
  if val = "" then none else
  match istExtract val.data with
  | some (y, mo, d, h, mi, s) =>
    let utc := jsDateCtorMs env.tzOffsetMs y mo d h mi s - istOffsetMs
    if utc.natAbs ≤ maxDateMs.toNat then some (toISOString utc) else none
  | none =>
    match jsDateParse env.tzOffsetMs val with
    | some ms => some (toISOString ms)
    | none =>
      match jsNumber val with
      | some num =>
        if 0 < num.mant then
          let timeMs :=
            if num.mant > 9999999999 * 10 ^ num.scale
            then Int.tdiv num.mant (10 ^ num.scale)
            else Int.tdiv (num.mant * 1000) (10 ^ num.scale)
          if timeMs.natAbs ≤ maxDateMs.toNat then some (toISOString timeMs)
          else timeOnlyBranch env val
        else timeOnlyBranch env val
      | none => timeOnlyBranch env val
where
  /-- The `HH:MM[:SS]` branch: today's UTC date at the given time treated
  as IST, converted to UTC. -/
  timeOnlyBranch (env : TsEnv) (val : String) : Option String :=
    match timeOnlyExtract val.data with
    | some (h, mi, s) =>
      let today0 := Int.fdiv env.nowMs 86400000 * 86400000
      let istDate := today0 + (h : Int) * 3600000 + (mi : Int) * 60000 + (s : Int) * 1000
      let utc := istDate - istOffsetMs
      if utc.natAbs ≤ maxDateMs.toNat then some (toISOString utc) else none
    | none => none

/-- The candidate loop of `parseTradeTimestamp`: the first candidate field
whose value parses wins; absent, `null` and empty values are skipped. -/
def tryCandidates (env : TsEnv) (d : RawRecord) : Option String :=
  candidateKeys.findSome? (fun k =>
    match getField d k with
    | some v => parseCandidateValue env v
    | none => none)

/-- Embedding of `parseTradeTimestamp(d, fallbackTime?)` (source lines
31-164): the candidate loop, then the truthy fallback, then the epoch
sentinel `new Date(0).toISOString()`. -/
def parseTradeTimestamp (env : TsEnv) (d : RawRecord) (fallbackTime : Option String) : String :=
  match tryCandidates env d with
  | some s => s
  | none =>
    match fallbackTime with
    | some fb => if fb = "" then toISOString 0 else fb
    | none => toISOString 0

example :
    parseTradeTimestamp ⟨0, 0⟩ [("FillTime", .str "2024-02-10 14:30:45")] none =
      "2024-02-10T09:00:45.000Z" := by decide

example : parseTradeTimestamp ⟨0, 0⟩ [] none = "1970-01-01T00:00:00.000Z" := by decide

example :
    parseTradeTimestamp ⟨0, 0⟩ [("timestamp", .num 1707565845)] none =
      toISOString 1707565845000 := by decide

/-! ## `fetchWithRetry` (src/lib/alice.ts, lines 166-183) -/

/-- Outcome of a single `fetch` attempt: a 2xx response with a body, a
non-2xx response with status and body text, or a thrown network error. -/
inductive FetchOutcome where
  | ok (body : String)
  | httpErr (status : Nat) (body : String)
  | netErr (msg : String)
deriving DecidableEq

/-- Is the attempt outcome a failure (non-2xx or thrown)? -/
def FetchOutcome.isFailure : FetchOutcome → Bool
  | .ok _ => false
  | _ => true

/-- The error message thrown for a failed attempt: non-2xx responses throw
`HTTP <status>: <body>`, network errors rethrow their own message. -/
def failMsg : FetchOutcome → String
  | .ok _ => ""
  | .httpErr status body => "HTTP " ++ Nat.repr status ++ ": " ++ body
  | .netErr msg => msg

/-- Returned body or final thrown error of a `fetchWithRetry` call. -/
inductive RetryResult where
  | ok (body : String)
  | error (msg : String)
deriving DecidableEq

/-- Result of a `fetchWithRetry` call together with its observable trace:
the value or final thrown error, the number of `fetch` calls performed,
and the list of backoff delays (ms) actually waited. -/
structure RetryOut where
  result : RetryResult
  attempts : Nat
  delays : List Nat
deriving DecidableEq

/-- The `while (attempt <= retries)` loop of `fetchWithRetry`, with the
remaining iteration budget `fuel = retries + 1 - attempt` made structural.
The `fuel = 0` case is the `throw new Error('Unreachable')` after the
loop.  `responses` is the environment: the outcome of the `fetch` call of
each attempt index. -/
def fetchGo (responses : Nat → FetchOutcome) (retries backoff : Nat) :
    Nat → Nat → RetryOut
  | _, 0 => ⟨.error "Unreachable", 0, []⟩
  | attempt, fuel + 1 =>
    match responses attempt with
    | .ok body => ⟨.ok body, 1, []⟩
    | f =>
      if attempt = retries then ⟨.error (failMsg f), 1, []⟩
      else
        let d := backoff * 2 ^ attempt
        let rest := fetchGo responses retries backoff (attempt + 1) fuel
        ⟨rest.result, rest.attempts + 1, d :: rest.delays⟩

/-- Embedding of `fetchWithRetry(url, options, retries, backoff)`; the
source defaults are `retries = 3`, `backoff = 500`. -/
def fetchWithRetry (responses : Nat → FetchOutcome) (retries backoff : Nat) : RetryOut :=
  fetchGo responses retries backoff 0 (retries + 1)

example :
    fetchWithRetry (fun _ => .httpErr 500 "boom") 3 500 =
      ⟨.error "HTTP 500: boom", 4, [500, 1000, 2000]⟩ := by decide

example :
    fetchWithRetry (fun n => if n = 0 then .netErr "ETIMEDOUT" else .ok "fine") 3 500 =
      ⟨.ok "fine", 2, [500]⟩ := by decide

/-! ## Trade deduplication and ordering -/

/-- Projection of a mapped canonical trade onto the fields the
deduplicate-and-sort code touches: the derived identifier, the normalized
execution timestamp, and the quantity (carried along to tell two records
with the same identifier apart). -/
structure MTrade where
  id : String
  timestamp : String
  quantity : Int
deriving DecidableEq

/-- The `seen`-set filter of `getMasterTrades` (src/lib/alice.ts lines
290-296): keep a trade iff its id has not been seen before. -/
def dedupeGo (seen : List String) : List MTrade → List MTrade
  | [] => []
  | t :: rest =>
    if t.id ∈ seen then dedupeGo seen rest
    else t :: dedupeGo (t.id :: seen) rest

/-- Deduplication by id of `getMasterTrades`: first occurrence wins, the
order of the batch is otherwise preserved, and no sorting follows —
`getMasterTrades` returns `deduped` as is. -/
def dedupeById (ts : List MTrade) : List MTrade := dedupeGo [] ts

/-- `uniqueMap.set(trade.id, trade)` over a JavaScript `Map`: an existing
key keeps its position but takes the new value, a new key is appended. -/
def mapUpsert (acc : List MTrade) (t : MTrade) : List MTrade :=
  if acc.any (fun x => x.id = t.id) then
    acc.map (fun x => if x.id = t.id then t else x)
  else acc ++ [t]

/-- The `uniqueMap` deduplication of the dashboard `fetchTrades`
(trades-table component, lines 101-105): key order is first occurrence,
the value kept per key is the last occurrence. -/
def mapDedupe (ts : List MTrade) : List MTrade := ts.foldl mapUpsert []

/-- Descending-time comparison used by the dashboard sort
`(a, b) => new Date(b.timestamp).getTime() - new Date(a.timestamp).getTime()`;
`timeOf` abstracts `new Date(s).getTime()`. -/
def newerLE (timeOf : String → Int) (a b : MTrade) : Bool :=
  timeOf b.timestamp ≤ timeOf a.timestamp

/-- The dashboard `fetchTrades` tail (lines 101-111): deduplicate through
the `Map`, then sort descending by execution timestamp.  JavaScript
`Array.prototype.sort` is stable and the comparator is a total preorder,
so a stable merge sort is an exact model. -/
def fetchTradesOrder (timeOf : String → Int) (ts : List MTrade) : List MTrade :=
  (mapDedupe ts).mergeSort (newerLE timeOf)

example :
    dedupeById [⟨"A", "t1", 1⟩, ⟨"B", "t2", 2⟩, ⟨"A", "t3", 3⟩] =
      [⟨"A", "t1", 1⟩, ⟨"B", "t2", 2⟩] := by decide

example :
    mapDedupe [⟨"A", "t1", 1⟩, ⟨"B", "t2", 2⟩, ⟨"A", "t3", 3⟩] =
      [⟨"A", "t3", 3⟩, ⟨"B", "t2", 2⟩] := by decide

/-! ## Fan-out engine (`POST /api/followers/execute-copy-trade`) -/

/-- JavaScript truthiness of an optional string (`undefined`/`null` and
`""` are falsy). -/
def truthyStr : Option String → Bool
  | some s => s ≠ ""
  | none => false

/-- JavaScript truthiness of an optional rational (`undefined`/`null` and
`0` are falsy). -/
def truthyQ : Option ℚ → Bool
  | some q => q ≠ 0
  | none => false

/-- `x || d` for an optional rational (the follower's `lot_multiplier || 1`). -/
def jsOrQ (v : Option ℚ) (d : ℚ) : ℚ :=
  match v with
  | some q => if q = 0 then d else q
  | none => d

/-- `x || d` for an optional integer (the follower's
`max_order_quantity || 1000`). -/
def jsOrI (v : Option Int) (d : Int) : Int :=
  match v with
  | some i => if i = 0 then d else i
  | none => d

/-- `x || d` for an optional string (`orderResponse?.error || '...'`). -/
def jsOrStr (v : Option String) (d : String) : String :=
  match v with
  | some s => if s = "" then d else s
  | none => d

/-- A follower row as selected by the route (columns actually read by the
loop; the credential columns only feed the broker call, which the broker
oracle models, and are omitted). -/
structure Follower where
  id : Nat
  follower_name : String
  lot_multiplier : Option ℚ
  max_order_quantity : Option Int
deriving DecidableEq

/-- Outcome of `pushOrderToAccount` for one follower: a parsed response
object (fields `ok`, `order_id`, `error`) or a thrown error. -/
inductive BrokerResult where
  | response (ok : Bool) (order_id : Option String) (error : Option String)
  | throws (msg : String)
deriving DecidableEq

/-- A `copy_trades` log row (the columns the claims are about). -/
structure CopyTradeRow where
  follower_id : Nat
  status : String
  reason : Option String
  follower_qty : Int
deriving DecidableEq

/-- Database state touched by the route: the `copied_trade_history`
duplicate-prevention ledger, keyed by `(master_trade_id, follower_id)`,
and the `copy_trades` outcome log. -/
structure DbState where
  history : List (String × Nat)
  copyTrades : List CopyTradeRow
deriving DecidableEq

/-- One entry of the per-follower `results` array of the response. -/
structure FollowerResult where
  followerId : Nat
  status : String
  reason : Option String
  followerQty : Option Int
  orderId : Option String
deriving DecidableEq

/-- The request-scoped context of the follower loop: the broker oracle
(per follower id) and the validated trade fields. -/
structure Ctx where
  broker : Nat → BrokerResult
  tradeId : String
  symbol : String
  side : String
  masterQty : ℚ
  price : ℚ

/-- Outcome of one iteration of the follower loop: the updated database
state, the result entry pushed, the broker orders issued (follower id and
quantity), and the counter increments the branch performs. -/
structure StepOut where
  st : DbState
  result : FollowerResult
  calls : List (Nat × Int)
  dSuccess : Nat
  dSkip : Nat
  dFail : Nat
deriving DecidableEq

/-- `followerQty` as computed at source lines 142-148:
`Math.floor(masterQty * (lot_multiplier || 1))`, clamped down to
`max_order_quantity || 1000`. -/
def computeFollowerQty (masterQty : ℚ) (f : Follower) : Int :=
  let lotMultiplier := jsOrQ f.lot_multiplier 1
  let maxQty := jsOrI f.max_order_quantity 1000
  let fq := ⌊masterQty * lotMultiplier⌋
  if fq > maxQty then maxQty else fq

/-- One iteration of the follower loop (source lines 120-270): duplicate
check against `copied_trade_history`, quantity computation with the
zero-quantity skip, the broker call, and the SUCCESS / FAILED recording.
Only a SUCCESS outcome writes the `copied_trade_history` ledger row. -/
def processFollower (c : Ctx) (st : DbState) (f : Follower) : StepOut :=
  if (c.tradeId, f.id) ∈ st.history then
    ⟨st, ⟨f.id, "SKIPPED",
      some "Trade already copied to this follower (duplicate prevention)", none, none⟩,
      [], 0, 1, 0⟩
  else if computeFollowerQty c.masterQty f = 0 then
    ⟨st, ⟨f.id, "SKIPPED", some "Quantity too small after multiplier", none, none⟩,
      [], 0, 1, 0⟩
  else
    match c.broker f.id with
    | .throws msg =>
      ⟨{ st with copyTrades := st.copyTrades ++ [⟨f.id, "FAILED", some msg, 0⟩] },
        ⟨f.id, "FAILED", some msg, none, none⟩,
        [(f.id, computeFollowerQty c.masterQty f)], 0, 0, 1⟩
    | .response ok oid err =>
      if ok || truthyStr oid then
        ⟨{ history := st.history ++ [(c.tradeId, f.id)],
           copyTrades :=
             st.copyTrades ++ [⟨f.id, "SUCCESS", none, computeFollowerQty c.masterQty f⟩] },
          ⟨f.id, "SUCCESS", none, some (computeFollowerQty c.masterQty f), oid⟩,
          [(f.id, computeFollowerQty c.masterQty f)], 1, 0, 0⟩
      else
        ⟨{ st with copyTrades :=
             st.copyTrades ++ [⟨f.id, "FAILED", some (jsOrStr err "Failed to push order"), 0⟩] },
          ⟨f.id, "FAILED", some (jsOrStr err "Failed to push order"), none, none⟩,
          [(f.id, computeFollowerQty c.masterQty f)], 0, 0, 1⟩

/-- Accumulated outcome of the whole follower loop. -/
structure LoopOut where
  st : DbState
  results : List FollowerResult
  calls : List (Nat × Int)
  successCount : Nat
  skippedDuplicateCount : Nat
  failedCount : Nat
deriving DecidableEq

/-- The `for (const follower of followers)` loop. -/
def fanLoop (c : Ctx) (st : DbState) : List Follower → LoopOut
  | [] => ⟨st, [], [], 0, 0, 0⟩
  | f :: fs =>
    let o := processFollower c st f
    let rest := fanLoop c o.st fs
    ⟨rest.st, o.result :: rest.results, o.calls ++ rest.calls,
      o.dSuccess + rest.successCount, o.dSkip + rest.skippedDuplicateCount,
      o.dFail + rest.failedCount⟩

/-- The summary object of a successful response. -/
structure Summary where
  successCount : Nat
  failedCount : Nat
  skippedDuplicateCount : Nat
  totalFollowers : Nat
deriving DecidableEq

/-- The route's JSON response: a 400 validation error with its message,
or the `ok: true` aggregate. -/
inductive PostResponse where
  | badRequest (message : String)
  | success (results : List FollowerResult) (summary : Summary)
deriving DecidableEq

/-- Is the response the `ok: true` success shape? -/
def PostResponse.isSuccess : PostResponse → Bool
  | .success _ _ => true
  | _ => false

/-- The per-follower result list of a response (empty on an error). -/
def PostResponse.resultsList : PostResponse → List FollowerResult
  | .success rs _ => rs
  | _ => []

/-- The summary of a response, when it is a success. -/
def PostResponse.summary? : PostResponse → Option Summary
  | .success _ s => some s
  | _ => none

/-- The request body fields the handler destructures and validates
(`masterId` and the follower-selector fields drive the external follower
query, which the `followers` argument of `POST` models). -/
structure FanoutBody where
  symbol : Option String
  side : Option String
  masterQty : Option ℚ
  price : Option ℚ
  tradeId : Option String

/-- Everything observable about one invocation of the handler: the HTTP
response, the final database state, and the broker orders issued. -/
structure PostOut where
  response : PostResponse
  state : DbState
  calls : List (Nat × Int)
deriving DecidableEq

/-- Embedding of the route handler `POST` (source lines 11-294): the two
validation guards, the empty-follower-set guard, then the follower loop
and the aggregate `ok: true` response.  `followers` is the follower set
the database query selected, `broker` the broker oracle, `st` the initial
database state. -/
def POST (b : FanoutBody) (followers : List Follower) (broker : Nat → BrokerResult)
    (st : DbState) : PostOut :=
  if !(truthyStr b.symbol && truthyStr b.side && truthyQ b.masterQty && truthyQ b.price) then
    ⟨.badRequest "Missing required trade fields: symbol, side, masterQty, price", st, []⟩
  else if !truthyStr b.tradeId then
    ⟨.badRequest "Missing tradeId - required to prevent duplicate copies", st, []⟩
  else if followers.isEmpty then
    ⟨.badRequest "No active followers found for copy trading", st, []⟩
  else
    let c : Ctx := ⟨broker, b.tradeId.getD "", b.symbol.getD "", b.side.getD "",
      b.masterQty.getD 0, b.price.getD 0⟩
    let out := fanLoop c st followers
    ⟨.success out.results
        ⟨out.successCount, out.failedCount, out.skippedDuplicateCount, followers.length⟩,
      out.st, out.calls⟩

/-! ## Theorems -/

/-- Helper: the truthy-fallback tail of `parseTradeTimestamp`. -/
theorem parseTradeTimestamp_of_tryCandidates_none (env : TsEnv) (d : RawRecord)
    (fb : Option String) (h : tryCandidates env d = none) :
    parseTradeTimestamp env d fb =
      match fb with
      | some s => if s = "" then "1970-01-01T00:00:00.000Z" else s
      | none => "1970-01-01T00:00:00.000Z" := by
  unfold parseTradeTimestamp
  rw [h]
  cases fb with
  | none => rfl
  | some s =>
    by_cases hs : s = ""
    · simp [hs]
      decide
    · simp [hs]

/-- C8: on a process running in UTC the fixed pattern
`YYYY-MM-DD HH:MM:SS` is converted as the spec describes
(`{"FillTime":"2024-02-10 14:30:45"}` gives `2024-02-10T09:00:45.000Z`),
but the source builds the date with the process-local `new Date(year,
month-1, ...)` constructor — despite its own comment "Create a Date
object in IST" — so on a server whose local zone is IST itself
(UTC+05:30) the same input comes out as `2024-02-10T03:30:45.000Z`: the
offset is subtracted twice and the claimed conversion fails. -/
theorem parseTradeTimestamp_ist_is_timezone_dependent :
    parseTradeTimestamp ⟨0, 0⟩ [("FillTime", JsVal.str "2024-02-10 14:30:45")] none =
      "2024-02-10T09:00:45.000Z" ∧
    parseTradeTimestamp ⟨19800000, 0⟩ [("FillTime", JsVal.str "2024-02-10 14:30:45")] none =
      "2024-02-10T03:30:45.000Z" := by
  constructor <;> decide

/-- C2: when no candidate timestamp field of the record parses under any
supported format, `parseTradeTimestamp` returns the caller-supplied
fallback instant when a truthy one is provided, and otherwise the Unix
epoch sentinel `1970-01-01T00:00:00.000Z`; the result is never derived
from the current clock. -/
theorem parseTradeTimestamp_fallback_sentinel (env : TsEnv) (d : RawRecord)
    (fb : Option String) (h : tryCandidates env d = none) :
    (∀ s, fb = some s → s ≠ "" → parseTradeTimestamp env d fb = s) ∧
    ((fb = none ∨ fb = some "") →
      parseTradeTimestamp env d fb = "1970-01-01T00:00:00.000Z") := by
  constructor
  · intro s hfb hs
    rw [parseTradeTimestamp_of_tryCandidates_none env d fb h, hfb]
    simp [hs]
  · intro hfb
    rcases hfb with hfb | hfb
    · rw [parseTradeTimestamp_of_tryCandidates_none env d fb h, hfb]
    · rw [parseTradeTimestamp_of_tryCandidates_none env d fb h, hfb]
      simp

/-- Witness for C2: the empty record (no candidate field present) with no
fallback, in an environment with a nonzero clock, yields the epoch
sentinel. -/
theorem parseTradeTimestamp_fallback_sentinel_witness :
    tryCandidates ⟨0, 1739178645000⟩ [] = none ∧
    parseTradeTimestamp ⟨0, 1739178645000⟩ [] none = "1970-01-01T00:00:00.000Z" :=
  ⟨by decide,
   (parseTradeTimestamp_fallback_sentinel ⟨0, 1739178645000⟩ [] none (by decide)).2
     (Or.inl rfl)⟩

/-- C10: `parseTradeTimestamp` is total — for every record, fallback and
environment its value is either the parse of some candidate field's
value, or the truthy fallback, or the epoch sentinel; no other outcome
(in particular no exception and no fabricated clock reading) exists. -/
theorem parseTradeTimestamp_always_classified (env : TsEnv) (d : RawRecord)
    (fb : Option String) :
    (∃ k ∈ candidateKeys, ∃ v, getField d k = some v ∧
        parseCandidateValue env v = some (parseTradeTimestamp env d fb)) ∨
    ((fb = none ∨ fb = some "") ∧
        parseTradeTimestamp env d fb = "1970-01-01T00:00:00.000Z") ∨
    (∃ s, fb = some s ∧ s ≠ "" ∧ parseTradeTimestamp env d fb = s) := by
  cases htc : tryCandidates env d with
  | some out =>
    left
    have h2 := List.exists_of_findSome?_eq_some htc
    rcases h2 with ⟨k, hk, hparse⟩
    refine ⟨k, hk, ?_⟩
    cases hg : getField d k with
    | none => rw [hg] at hparse; exact absurd hparse (by simp)
    | some v =>
      rw [hg] at hparse
      refine ⟨v, rfl, ?_⟩
      have : parseTradeTimestamp env d fb = out := by
        unfold parseTradeTimestamp; rw [htc]
      rw [this]
      exact hparse
  | none =>
    cases fb with
    | none =>
      right; left
      exact ⟨Or.inl rfl, (parseTradeTimestamp_fallback_sentinel env d none htc).2 (Or.inl rfl)⟩
    | some s =>
      by_cases hs : s = ""
      · right; left
        subst hs
        exact ⟨Or.inr rfl,
          (parseTradeTimestamp_fallback_sentinel env d (some "") htc).2 (Or.inr rfl)⟩
      · right; right
        exact ⟨s, rfl, hs,
          (parseTradeTimestamp_fallback_sentinel env d (some s) htc).1 s rfl hs⟩

/-- Helper: the attempt count of the retry loop never exceeds its fuel. -/
theorem fetchGo_attempts_le (responses : Nat → FetchOutcome) (retries backoff : Nat) :
    ∀ fuel attempt, (fetchGo responses retries backoff attempt fuel).attempts ≤ fuel := by
  intro fuel
  induction fuel with
  | zero => intro attempt; simp [fetchGo]
  | succ n ih =>
    intro attempt
    unfold fetchGo
    cases responses attempt with
    | ok body => simp
    | httpErr status body =>
      by_cases h : attempt = retries
      · simp [h]
      · simpa [h] using ih (attempt + 1)
    | netErr msg =>
      by_cases h : attempt = retries
      · simp [h]
      · simpa [h] using ih (attempt + 1)

/-- Helper: exhaustion shape of the retry loop, generalised over the
current attempt index. -/
theorem fetchGo_exhaustion (responses : Nat → FetchOutcome) (retries backoff : Nat)
    (hall : ∀ i, i ≤ retries → (responses i).isFailure = true) :
    ∀ fuel attempt, attempt + fuel = retries →
      fetchGo responses retries backoff attempt (fuel + 1) =
        ⟨.error (failMsg (responses retries)), fuel + 1,
          (List.range fuel).map (fun i => backoff * 2 ^ (attempt + i))⟩ := by
  intro fuel
  induction fuel with
  | zero =>
    intro attempt h
    have hat : attempt = retries := by omega
    subst hat
    have hfail := hall attempt (le_refl attempt)
    unfold fetchGo
    cases hr : responses attempt with
    | ok body => rw [hr] at hfail; simp [FetchOutcome.isFailure] at hfail
    | httpErr status body => simp
    | netErr msg => simp
  | succ n ih =>
    intro attempt h
    have hat : attempt ≠ retries := by omega
    have hfail := hall attempt (by omega)
    have hrec := ih (attempt + 1) (by omega)
    unfold fetchGo
    cases hr : responses attempt with
    | ok body => rw [hr] at hfail; simp [FetchOutcome.isFailure] at hfail
    | httpErr status body =>
      simp only [hat, if_false, hrec, RetryOut.mk.injEq, List.range_succ_eq_map,
        List.map_cons, List.map_map, true_and, and_true, pow_zero, Nat.add_zero, mul_one]
      congr 1
      apply List.map_congr_left
      intro i hi
      simp only [Function.comp, Nat.succ_eq_add_one]
      ring_nf
    | netErr msg =>
      simp only [hat, if_false, hrec, RetryOut.mk.injEq, List.range_succ_eq_map,
        List.map_cons, List.map_map, true_and, and_true, pow_zero, Nat.add_zero, mul_one]
      congr 1
      apply List.map_congr_left
      intro i hi
      simp only [Function.comp, Nat.succ_eq_add_one]
      ring_nf

/-- C4 (amended): the retry client is bounded — it performs at most
`retries + 1` fetch attempts (one initial call plus up to `retries`
retries, so four calls with the source defaults `retries = 3`); every
non-2xx response or thrown network error counts as a failure, and when
every attempt fails the loop performs exactly `retries + 1` attempts,
waits the doubling backoff delays `backoff * 2 ^ i`, and surfaces the
last attempt's error — which, for a non-2xx response, carries the HTTP
status and response body in its `HTTP <status>: <body>` message. -/
theorem fetchWithRetry_bounded_and_exhaustion (responses : Nat → FetchOutcome)
    (retries backoff : Nat) :
    (fetchWithRetry responses retries backoff).attempts ≤ retries + 1 ∧
    ((∀ i, i ≤ retries → (responses i).isFailure = true) →
      fetchWithRetry responses retries backoff =
        ⟨.error (failMsg (responses retries)), retries + 1,
          (List.range retries).map (fun i => backoff * 2 ^ i)⟩) := by
  constructor
  · exact fetchGo_attempts_le responses retries backoff (retries + 1) 0
  · intro hall
    have h := fetchGo_exhaustion responses retries backoff hall retries 0 (by omega)
    unfold fetchWithRetry
    rw [h]
    simp

/-- Witness for C4 (amended): a broker endpoint answering HTTP 500
`boom` on every attempt, with the source defaults, exhausts all four
attempts, waits 500, 1000 and 2000 ms, and surfaces `HTTP 500: boom`. -/
theorem fetchWithRetry_bounded_and_exhaustion_witness :
    (∀ i, i ≤ 3 → ((fun _ => FetchOutcome.httpErr 500 "boom") i).isFailure = true) ∧
    fetchWithRetry (fun _ => FetchOutcome.httpErr 500 "boom") 3 500 =
      ⟨.error (failMsg ((fun _ => FetchOutcome.httpErr 500 "boom") 3)), 3 + 1,
        (List.range 3).map (fun i => 500 * 2 ^ i)⟩ :=
  ⟨fun _ _ => rfl,
   (fetchWithRetry_bounded_and_exhaustion (fun _ => FetchOutcome.httpErr 500 "boom") 3 500).2
     (fun _ _ => rfl)⟩

/-- C4 counterexample: with the source defaults (`retries = 3`,
`backoff = 500`) and an endpoint failing every attempt, the client
performs four fetch attempts, not the three the claim states. -/
theorem fetchWithRetry_default_is_four_attempts :
    fetchWithRetry (fun _ => FetchOutcome.httpErr 500 "boom") 3 500 =
      ⟨.error "HTTP 500: boom", 4, [500, 1000, 2000]⟩ ∧
    (fetchWithRetry (fun _ => FetchOutcome.httpErr 500 "boom") 3 500).attempts ≠ 3 := by
  constructor <;> decide

/-- Is the response a 400 validation error? -/
def PostResponse.isBadRequest : PostResponse → Bool
  | .badRequest _ => true
  | _ => false

/-- C5: if any of symbol, side, masterQty, price or the tradeId
idempotency key is absent from the request body, the whole call fails
with a 400 validation error before any per-follower work: the database
state is untouched and no broker order is issued for any follower. -/
theorem post_missing_field_short_circuits (b : FanoutBody) (followers : List Follower)
    (broker : Nat → BrokerResult) (st : DbState)
    (h : b.symbol = none ∨ b.side = none ∨ b.masterQty = none ∨ b.price = none ∨
      b.tradeId = none) :
    (POST b followers broker st).response.isBadRequest = true ∧
    (POST b followers broker st).state = st ∧
    (POST b followers broker st).calls = [] := by
  unfold POST
  by_cases h1 : truthyStr b.symbol && truthyStr b.side && truthyQ b.masterQty && truthyQ b.price
  · have htr : b.tradeId = none := by
      rcases h with h | h | h | h | h
      · rw [h] at h1; simp [truthyStr] at h1
      · rw [h] at h1; simp [truthyStr] at h1
      · rw [h] at h1; simp [truthyQ] at h1
      · rw [h] at h1; simp [truthyQ] at h1
      · exact h
    simp only [h1, htr, truthyStr, Bool.not_true, if_true, if_false]
    refine ⟨?_, ?_, ?_⟩ <;> split <;> rfl
  · simp [h1, PostResponse.isBadRequest]

/-- Witness for C5: a body missing its symbol is rejected outright with
the state unchanged and no broker call. -/
theorem post_missing_field_short_circuits_witness :
    ((⟨none, some "Buy", some 10, some 100, some "T1"⟩ : FanoutBody).symbol = none ∨
      (⟨none, some "Buy", some 10, some 100, some "T1"⟩ : FanoutBody).side = none ∨
      (⟨none, some "Buy", some 10, some 100, some "T1"⟩ : FanoutBody).masterQty = none ∨
      (⟨none, some "Buy", some 10, some 100, some "T1"⟩ : FanoutBody).price = none ∨
      (⟨none, some "Buy", some 10, some 100, some "T1"⟩ : FanoutBody).tradeId = none) ∧
    ((POST ⟨none, some "Buy", some 10, some 100, some "T1"⟩ [⟨1, "F1", none, none⟩]
        (fun _ => .response true (some "OK") none) ⟨[], []⟩).response.isBadRequest = true ∧
      (POST ⟨none, some "Buy", some 10, some 100, some "T1"⟩ [⟨1, "F1", none, none⟩]
        (fun _ => .response true (some "OK") none) ⟨[], []⟩).state = ⟨[], []⟩ ∧
      (POST ⟨none, some "Buy", some 10, some 100, some "T1"⟩ [⟨1, "F1", none, none⟩]
        (fun _ => .response true (some "OK") none) ⟨[], []⟩).calls = []) :=
  ⟨Or.inl rfl,
   post_missing_field_short_circuits _ _ _ _ (Or.inl rfl)⟩

/-- C9: a request whose masterQty or price is present but equal to 0 is
rejected by the truthiness check with the `Missing required trade fields`
message, before any per-follower work — a zero-quantity or zero-price
master trade can never be fanned out. -/
theorem post_zero_qty_or_price_rejected (b : FanoutBody) (followers : List Follower)
    (broker : Nat → BrokerResult) (st : DbState)
    (h : b.masterQty = some 0 ∨ b.price = some 0) :
    (POST b followers broker st).response =
      .badRequest "Missing required trade fields: symbol, side, masterQty, price" ∧
    (POST b followers broker st).state = st ∧
    (POST b followers broker st).calls = [] := by
  unfold POST
  have hfalse : (truthyStr b.symbol && truthyStr b.side && truthyQ b.masterQty &&
      truthyQ b.price) = false := by
    rcases h with h | h <;> rw [h] <;> simp [truthyQ]
  simp [hfalse]

/-- Witness for C9: masterQty 0 (all other fields present and truthy) is
rejected with the missing-fields message and no state change. -/
theorem post_zero_qty_or_price_rejected_witness :
    ((⟨some "TCS", some "Buy", some 0, some 100, some "T1"⟩ : FanoutBody).masterQty = some 0 ∨
      (⟨some "TCS", some "Buy", some 0, some 100, some "T1"⟩ : FanoutBody).price = some 0) ∧
    ((POST ⟨some "TCS", some "Buy", some 0, some 100, some "T1"⟩ [⟨1, "F1", none, none⟩]
        (fun _ => .response true (some "OK") none) ⟨[], []⟩).response =
      .badRequest "Missing required trade fields: symbol, side, masterQty, price" ∧
      (POST ⟨some "TCS", some "Buy", some 0, some 100, some "T1"⟩ [⟨1, "F1", none, none⟩]
        (fun _ => .response true (some "OK") none) ⟨[], []⟩).state = ⟨[], []⟩ ∧
      (POST ⟨some "TCS", some "Buy", some 0, some 100, some "T1"⟩ [⟨1, "F1", none, none⟩]
        (fun _ => .response true (some "OK") none) ⟨[], []⟩).calls = []) :=
  ⟨Or.inl rfl,
   post_zero_qty_or_price_rejected _ _ _ _ (Or.inl rfl)⟩

/-- C3: for a follower with no prior ledger record, the quantity sent to
the broker is `⌊masterQty * lotMultiplier⌋` clamped down to the cap
(`computeFollowerQty`); when it is zero the follower's result is SKIPPED
with reason `Quantity too small after multiplier` and nothing is written
for that follower (the database state is returned unchanged and no broker
call is issued); and the spec's three examples hold: 10 × 0.5 capped at
100 gives 5, 10 × 2 capped at 15 clamps to 15, and 1 × 0.1 floors to 0. -/
theorem followerQty_scaling :
    (∀ (c : Ctx) (st : DbState) (f : Follower), (c.tradeId, f.id) ∉ st.history →
      (computeFollowerQty c.masterQty f = 0 →
        processFollower c st f =
          ⟨st, ⟨f.id, "SKIPPED", some "Quantity too small after multiplier", none, none⟩,
            [], 0, 1, 0⟩) ∧
      (computeFollowerQty c.masterQty f ≠ 0 →
        (processFollower c st f).calls = [(f.id, computeFollowerQty c.masterQty f)])) ∧
    computeFollowerQty 10 ⟨1, "A", some 0.5, some 100⟩ = 5 ∧
    computeFollowerQty 10 ⟨2, "B", some 2, some 15⟩ = 15 ∧
    computeFollowerQty 1 ⟨3, "C", some 0.1, none⟩ = 0 := by
  refine ⟨?_, ?_, ?_, ?_⟩
  · intro c st f hmem
    constructor
    · intro hq
      unfold processFollower
      simp [hmem, hq]
    · intro hq
      unfold processFollower
      simp only [hmem, if_false, hq, if_neg hq]
      cases c.broker f.id with
      | throws msg => simp
      | response ok oid err =>
        by_cases hok : (ok || truthyStr oid) = true <;> simp [hok]
  · norm_num [computeFollowerQty, jsOrQ, jsOrI]
  · norm_num [computeFollowerQty, jsOrQ, jsOrI]
  · norm_num [computeFollowerQty, jsOrQ, jsOrI]

/-- Witness for C3: the spec's zero-quantity example run through the
follower loop body — masterQty 1 with lot multiplier 0.1 floors to 0,
the result is the SKIPPED entry, the state is unchanged and no broker
order is issued. -/
theorem followerQty_scaling_witness :
    (("T1", 3) ∉ (⟨[], []⟩ : DbState).history) ∧
    processFollower ⟨fun _ => .response true (some "OK") none, "T1", "TCS", "Buy", 1, 100⟩
        ⟨[], []⟩ ⟨3, "C", some 0.1, none⟩ =
      ⟨⟨[], []⟩, ⟨3, "SKIPPED", some "Quantity too small after multiplier", none, none⟩,
        [], 0, 1, 0⟩ :=
  ⟨by decide,
   (followerQty_scaling.1 ⟨fun _ => .response true (some "OK") none, "T1", "TCS", "Buy", 1, 100⟩
      ⟨[], []⟩ ⟨3, "C", some 0.1, none⟩ (by decide)).1
     (by norm_num [computeFollowerQty, jsOrQ, jsOrI])⟩

/-- Helper: every branch of the follower loop body reports the follower's
own id in its result entry. -/
theorem processFollower_followerId (c : Ctx) (st : DbState) (f : Follower) :
    (processFollower c st f).result.followerId = f.id := by
  unfold processFollower
  split
  · rfl
  · split
    · rfl
    · split
      · rfl
      · split <;> rfl

/-- Helper: the counter increment of each branch of the follower loop
body agrees with the status of the result entry the branch pushes. -/
theorem processFollower_status_deltas (c : Ctx) (st : DbState) (f : Follower) :
    (processFollower c st f).dSuccess =
      (if (processFollower c st f).result.status == "SUCCESS" then 1 else 0) ∧
    (processFollower c st f).dSkip =
      (if (processFollower c st f).result.status == "SKIPPED" then 1 else 0) ∧
    (processFollower c st f).dFail =
      (if (processFollower c st f).result.status == "FAILED" then 1 else 0) := by
  unfold processFollower
  split
  · simp
  · split
    · simp
    · split
      · simp
      · split <;> simp

/-- Helper: the follower loop produces exactly one result entry per
follower, in list order, carrying that follower's id. -/
theorem fanLoop_ids (c : Ctx) : ∀ (fs : List Follower) (st : DbState),
    (fanLoop c st fs).results.map (fun r => r.followerId) = fs.map (fun f => f.id) := by
  intro fs
  induction fs with
  | nil => intro st; simp [fanLoop]
  | cons f fs ih =>
    intro st
    simp [fanLoop, processFollower_followerId, ih]

/-- Helper: the loop counters equal the number of result entries with the
corresponding status. -/
theorem fanLoop_counts (c : Ctx) : ∀ (fs : List Follower) (st : DbState),
    (fanLoop c st fs).successCount =
      (fanLoop c st fs).results.countP (fun r => r.status == "SUCCESS") ∧
    (fanLoop c st fs).failedCount =
      (fanLoop c st fs).results.countP (fun r => r.status == "FAILED") ∧
    (fanLoop c st fs).skippedDuplicateCount =
      (fanLoop c st fs).results.countP (fun r => r.status == "SKIPPED") := by
  intro fs
  induction fs with
  | nil => intro st; simp [fanLoop]
  | cons f fs ih =>
    intro st
    have hd := processFollower_status_deltas c st f
    have hrest := ih (processFollower c st f).st
    simp only [fanLoop, List.countP_cons, hd.1, hd.2.1, hd.2.2,
      hrest.1, hrest.2.1, hrest.2.2]
    omega

/-- C6: for a valid request and a non-empty follower set, whatever the
broker does for each follower (reject, or throw a network error), the
call returns the overall `ok: true` success shape, carrying one result
entry per follower in order, and the summary counts equal the number of
SUCCESS, FAILED and SKIPPED entries in the per-follower list — a single
follower's failure is recorded as its own FAILED entry and never aborts
the remaining followers nor the whole call. -/
theorem post_mixed_outcomes_still_success (b : FanoutBody) (followers : List Follower)
    (broker : Nat → BrokerResult) (st : DbState)
    (hsym : truthyStr b.symbol = true) (hside : truthyStr b.side = true)
    (hqty : truthyQ b.masterQty = true) (hprice : truthyQ b.price = true)
    (htid : truthyStr b.tradeId = true) (hne : followers ≠ []) :
    (POST b followers broker st).response.isSuccess = true ∧
    (POST b followers broker st).response.resultsList.map (fun r => r.followerId) =
      followers.map (fun f => f.id) ∧
    (POST b followers broker st).response.summary? =
      some ⟨(POST b followers broker st).response.resultsList.countP
              (fun r => r.status == "SUCCESS"),
            (POST b followers broker st).response.resultsList.countP
              (fun r => r.status == "FAILED"),
            (POST b followers broker st).response.resultsList.countP
              (fun r => r.status == "SKIPPED"),
            followers.length⟩ := by
  have hempty : followers.isEmpty = false := by
    cases followers with
    | nil => exact absurd rfl hne
    | cons f fs => rfl
  unfold POST
  simp only [hsym, hside, hqty, hprice, htid, Bool.and_self, Bool.not_true, if_false,
    Bool.true_and, Bool.and_true, hempty, Bool.false_eq_true]
  set c : Ctx := ⟨broker, b.tradeId.getD "", b.symbol.getD "", b.side.getD "",
    b.masterQty.getD 0, b.price.getD 0⟩ with hc
  have hcnt := fanLoop_counts c followers st
  refine ⟨rfl, ?_, ?_⟩
  · simpa [PostResponse.resultsList] using fanLoop_ids c followers st
  · simp only [PostResponse.summary?, PostResponse.resultsList]
    rw [hcnt.1, hcnt.2.1, hcnt.2.2]

/-- Witness for C6: two followers, the first one's broker call throwing a
network error and the second succeeding — the call still reports overall
success with one FAILED and one SUCCESS entry. -/
theorem post_mixed_outcomes_still_success_witness :
    (truthyStr (⟨some "TCS", some "Buy", some 10, some 100, some "T7"⟩ : FanoutBody).symbol =
      true) ∧
    ([(⟨1, "F1", none, none⟩ : Follower), ⟨2, "F2", none, none⟩] ≠ []) ∧
    ((POST ⟨some "TCS", some "Buy", some 10, some 100, some "T7"⟩
        [⟨1, "F1", none, none⟩, ⟨2, "F2", none, none⟩]
        (fun i => if i = 1 then .throws "ECONNREFUSED" else .response true (some "OK2") none)
        ⟨[], []⟩).response.isSuccess = true ∧
      (POST ⟨some "TCS", some "Buy", some 10, some 100, some "T7"⟩
        [⟨1, "F1", none, none⟩, ⟨2, "F2", none, none⟩]
        (fun i => if i = 1 then .throws "ECONNREFUSED" else .response true (some "OK2") none)
        ⟨[], []⟩).response.resultsList.map (fun r => r.followerId) =
        [(⟨1, "F1", none, none⟩ : Follower), ⟨2, "F2", none, none⟩].map (fun f => f.id) ∧
      (POST ⟨some "TCS", some "Buy", some 10, some 100, some "T7"⟩
        [⟨1, "F1", none, none⟩, ⟨2, "F2", none, none⟩]
        (fun i => if i = 1 then .throws "ECONNREFUSED" else .response true (some "OK2") none)
        ⟨[], []⟩).response.summary? =
        some ⟨(POST ⟨some "TCS", some "Buy", some 10, some 100, some "T7"⟩
                [⟨1, "F1", none, none⟩, ⟨2, "F2", none, none⟩]
                (fun i => if i = 1 then .throws "ECONNREFUSED"
                  else .response true (some "OK2") none)
                ⟨[], []⟩).response.resultsList.countP (fun r => r.status == "SUCCESS"),
              (POST ⟨some "TCS", some "Buy", some 10, some 100, some "T7"⟩
                [⟨1, "F1", none, none⟩, ⟨2, "F2", none, none⟩]
                (fun i => if i = 1 then .throws "ECONNREFUSED"
                  else .response true (some "OK2") none)
                ⟨[], []⟩).response.resultsList.countP (fun r => r.status == "FAILED"),
              (POST ⟨some "TCS", some "Buy", some 10, some 100, some "T7"⟩
                [⟨1, "F1", none, none⟩, ⟨2, "F2", none, none⟩]
                (fun i => if i = 1 then .throws "ECONNREFUSED"
                  else .response true (some "OK2") none)
                ⟨[], []⟩).response.resultsList.countP (fun r => r.status == "SKIPPED"),
              [(⟨1, "F1", none, none⟩ : Follower), ⟨2, "F2", none, none⟩].length⟩) :=
  ⟨rfl, by decide,
   post_mixed_outcomes_still_success _ _ _ _ rfl rfl (by norm_num [truthyQ])
     (by norm_num [truthyQ]) rfl (by decide)⟩

/-- Does the broker outcome count as acceptance
(`orderResponse?.ok || orderResponse?.order_id`)? -/
def brokerAccepts : BrokerResult → Bool
  | .response ok oid _ => ok || truthyStr oid
  | .throws _ => false

/-- The `order_id` field of a broker response. -/
def brokerOrderId : BrokerResult → Option String
  | .response _ oid _ => oid
  | .throws _ => none

/-- Helper: the loop body on a follower whose `(tradeId, followerId)` key
is already in `copied_trade_history` short-circuits to the SKIPPED entry,
leaves the database untouched, and issues no broker call. -/
theorem processFollower_duplicate (c : Ctx) (st : DbState) (f : Follower)
    (hmem : (c.tradeId, f.id) ∈ st.history) :
    processFollower c st f =
      ⟨st, ⟨f.id, "SKIPPED",
        some "Trade already copied to this follower (duplicate prevention)", none, none⟩,
        [], 0, 1, 0⟩ := by
  unfold processFollower
  rw [if_pos hmem]

/-- Helper: the loop body on a fresh key with a nonzero quantity and an
accepting broker response writes the ledger row and the SUCCESS log row,
and reports SUCCESS. -/
theorem processFollower_success (c : Ctx) (st : DbState) (f : Follower)
    (hmem : (c.tradeId, f.id) ∉ st.history)
    (hqty : computeFollowerQty c.masterQty f ≠ 0)
    (hbrk : brokerAccepts (c.broker f.id) = true) :
    processFollower c st f =
      ⟨⟨st.history ++ [(c.tradeId, f.id)],
        st.copyTrades ++ [⟨f.id, "SUCCESS", none, computeFollowerQty c.masterQty f⟩]⟩,
        ⟨f.id, "SUCCESS", none, some (computeFollowerQty c.masterQty f),
          brokerOrderId (c.broker f.id)⟩,
        [(f.id, computeFollowerQty c.masterQty f)], 1, 0, 0⟩ := by
  unfold processFollower
  rw [if_neg hmem, if_neg hqty]
  cases hb : c.broker f.id with
  | throws msg => rw [hb] at hbrk; simp [brokerAccepts] at hbrk
  | response ok oid err =>
    rw [hb] at hbrk
    simp only [brokerAccepts] at hbrk
    simp [hbrk, brokerOrderId]

/-- C1 (amended): when the first fan-out invocation ends in SUCCESS for a
follower, the key `(tradeId, followerId)` is recorded exactly once in the
duplicate-prevention ledger, and a second invocation with identical
inputs reports SKIPPED for that follower — with the source's reason text
`Trade already copied to this follower (duplicate prevention)` — issues
no broker order call, and leaves the database unchanged.  (A FAILED first
attempt writes no ledger row and is retried, see the counterexample.) -/
theorem copyTrade_success_idempotent (b : FanoutBody) (f : Follower)
    (broker : Nat → BrokerResult) (st0 : DbState) (T : String)
    (hsym : truthyStr b.symbol = true) (hside : truthyStr b.side = true)
    (hqty : truthyQ b.masterQty = true) (hprice : truthyQ b.price = true)
    (htid : b.tradeId = some T) (hT : T ≠ "")
    (hmem : (T, f.id) ∉ st0.history)
    (hq : computeFollowerQty (b.masterQty.getD 0) f ≠ 0)
    (hbrk : brokerAccepts (broker f.id) = true) :
    (POST b [f] broker st0).state.history.count (T, f.id) = 1 ∧
    (POST b [f] broker st0).response.resultsList.map (fun r => r.status) = ["SUCCESS"] ∧
    (POST b [f] broker (POST b [f] broker st0).state).response.resultsList =
      [⟨f.id, "SKIPPED",
        some "Trade already copied to this follower (duplicate prevention)", none, none⟩] ∧
    (POST b [f] broker (POST b [f] broker st0).state).calls = [] ∧
    (POST b [f] broker (POST b [f] broker st0).state).state =
      (POST b [f] broker st0).state := by
  have htidT : truthyStr b.tradeId = true := by rw [htid]; simpa [truthyStr] using hT
  have hgetD : b.tradeId.getD "" = T := by simp [htid]
  have hpost1 : POST b [f] broker st0 =
      ⟨.success [(processFollower ⟨broker, T, b.symbol.getD "", b.side.getD "",
          b.masterQty.getD 0, b.price.getD 0⟩ st0 f).result]
        ⟨(processFollower ⟨broker, T, b.symbol.getD "", b.side.getD "",
            b.masterQty.getD 0, b.price.getD 0⟩ st0 f).dSuccess,
          (processFollower ⟨broker, T, b.symbol.getD "", b.side.getD "",
            b.masterQty.getD 0, b.price.getD 0⟩ st0 f).dFail,
          (processFollower ⟨broker, T, b.symbol.getD "", b.side.getD "",
            b.masterQty.getD 0, b.price.getD 0⟩ st0 f).dSkip, 1⟩,
        (processFollower ⟨broker, T, b.symbol.getD "", b.side.getD "",
          b.masterQty.getD 0, b.price.getD 0⟩ st0 f).st,
        (processFollower ⟨broker, T, b.symbol.getD "", b.side.getD "",
          b.masterQty.getD 0, b.price.getD 0⟩ st0 f).calls⟩ := by
    unfold POST
    simp [hsym, hside, hqty, hprice, htidT, hgetD, fanLoop]
  set c : Ctx := ⟨broker, T, b.symbol.getD "", b.side.getD "",
    b.masterQty.getD 0, b.price.getD 0⟩ with hc
  have hstep := processFollower_success c st0 f (by simpa using hmem) (by simpa using hq)
    (by simpa using hbrk)
  have hstate1 : (POST b [f] broker st0).state =
      ⟨st0.history ++ [(T, f.id)],
        st0.copyTrades ++ [⟨f.id, "SUCCESS", none, computeFollowerQty c.masterQty f⟩]⟩ := by
    rw [hpost1, hstep]
  have hpost2 : POST b [f] broker (POST b [f] broker st0).state =
      ⟨.success [(processFollower c (POST b [f] broker st0).state f).result]
        ⟨(processFollower c (POST b [f] broker st0).state f).dSuccess,
          (processFollower c (POST b [f] broker st0).state f).dFail,
          (processFollower c (POST b [f] broker st0).state f).dSkip, 1⟩,
        (processFollower c (POST b [f] broker st0).state f).st,
        (processFollower c (POST b [f] broker st0).state f).calls⟩ := by
    unfold POST
    simp [hsym, hside, hqty, hprice, htidT, hgetD, fanLoop, hc]
  have hmem2 : (c.tradeId, f.id) ∈ (POST b [f] broker st0).state.history := by
    rw [hstate1]
    simp [hc]
  have hstep2 := processFollower_duplicate c (POST b [f] broker st0).state f hmem2
  refine ⟨?_, ?_, ?_, ?_, ?_⟩
  · rw [hstate1]
    simp only [List.count_append]
    rw [List.count_eq_zero.2 hmem]
    simp
  · rw [hpost1, hstep]
    rfl
  · rw [hpost2, hstep2]
    rfl
  · rw [hpost2, hstep2]
  · rw [hpost2, hstep2]

/-- Witness for C1 (amended): one follower, an accepting broker: the
first call records the key once, the second call is SKIPPED with no
broker order and an unchanged database. -/
theorem copyTrade_success_idempotent_witness :
    ((("T1", 1) ∉ (⟨[], []⟩ : DbState).history) ∧
      computeFollowerQty ((some (10 : ℚ)).getD 0) ⟨1, "F1", none, none⟩ ≠ 0 ∧
      brokerAccepts ((fun _ => .response true (some "ORD1") none : Nat → BrokerResult) 1) =
        true) ∧
    ((POST ⟨some "TCS", some "Buy", some 10, some 100, some "T1"⟩ [⟨1, "F1", none, none⟩]
        (fun _ => .response true (some "ORD1") none) ⟨[], []⟩).state.history.count
        ("T1", 1) = 1 ∧
      (POST ⟨some "TCS", some "Buy", some 10, some 100, some "T1"⟩ [⟨1, "F1", none, none⟩]
        (fun _ => .response true (some "ORD1") none) ⟨[], []⟩).response.resultsList.map
        (fun r => r.status) = ["SUCCESS"] ∧
      (POST ⟨some "TCS", some "Buy", some 10, some 100, some "T1"⟩ [⟨1, "F1", none, none⟩]
        (fun _ => .response true (some "ORD1") none)
        (POST ⟨some "TCS", some "Buy", some 10, some 100, some "T1"⟩ [⟨1, "F1", none, none⟩]
          (fun _ => .response true (some "ORD1") none) ⟨[], []⟩).state).response.resultsList =
        [⟨1, "SKIPPED",
          some "Trade already copied to this follower (duplicate prevention)", none, none⟩] ∧
      (POST ⟨some "TCS", some "Buy", some 10, some 100, some "T1"⟩ [⟨1, "F1", none, none⟩]
        (fun _ => .response true (some "ORD1") none)
        (POST ⟨some "TCS", some "Buy", some 10, some 100, some "T1"⟩ [⟨1, "F1", none, none⟩]
          (fun _ => .response true (some "ORD1") none) ⟨[], []⟩).state).calls = [] ∧
      (POST ⟨some "TCS", some "Buy", some 10, some 100, some "T1"⟩ [⟨1, "F1", none, none⟩]
        (fun _ => .response true (some "ORD1") none)
        (POST ⟨some "TCS", some "Buy", some 10, some 100, some "T1"⟩ [⟨1, "F1", none, none⟩]
          (fun _ => .response true (some "ORD1") none) ⟨[], []⟩).state).state =
        (POST ⟨some "TCS", some "Buy", some 10, some 100, some "T1"⟩ [⟨1, "F1", none, none⟩]
          (fun _ => .response true (some "ORD1") none) ⟨[], []⟩).state) :=
  ⟨⟨by decide, by norm_num [computeFollowerQty, jsOrQ, jsOrI], by decide⟩,
   copyTrade_success_idempotent ⟨some "TCS", some "Buy", some 10, some 100, some "T1"⟩
     ⟨1, "F1", none, none⟩ (fun _ => .response true (some "ORD1") none) ⟨[], []⟩ "T1"
     (by decide) (by decide) (by norm_num [truthyQ]) (by norm_num [truthyQ]) rfl
     (by decide) (by decide) (by norm_num [computeFollowerQty, jsOrQ, jsOrI]) (by decide)⟩

/-- C1 counterexample: a FAILED outcome writes no duplicate-prevention
ledger row, so a second identical invocation does not short-circuit to
SKIPPED: it calls the broker again and appends a second FAILED terminal
record for the same `(tradeId, followerId)` pair — refuting the claim
that any SUCCESS-or-FAILED first outcome makes the second invocation
SKIPPED with no broker call and leaves exactly one terminal record. -/
theorem copyTrade_failed_first_attempt_retries :
    (POST ⟨some "TCS", some "Buy", some 10, some 100, some "T1"⟩ [⟨1, "F1", none, none⟩]
      (fun _ => .response false none (some "rejected"))
      (POST ⟨some "TCS", some "Buy", some 10, some 100, some "T1"⟩ [⟨1, "F1", none, none⟩]
        (fun _ => .response false none (some "rejected")) ⟨[], []⟩).state).response.resultsList.map
      (fun r => r.status) = ["FAILED"] ∧
    (POST ⟨some "TCS", some "Buy", some 10, some 100, some "T1"⟩ [⟨1, "F1", none, none⟩]
      (fun _ => .response false none (some "rejected"))
      (POST ⟨some "TCS", some "Buy", some 10, some 100, some "T1"⟩ [⟨1, "F1", none, none⟩]
        (fun _ => .response false none (some "rejected")) ⟨[], []⟩).state).calls =
      [(1, 10)] ∧
    (POST ⟨some "TCS", some "Buy", some 10, some 100, some "T1"⟩ [⟨1, "F1", none, none⟩]
      (fun _ => .response false none (some "rejected"))
      (POST ⟨some "TCS", some "Buy", some 10, some 100, some "T1"⟩ [⟨1, "F1", none, none⟩]
        (fun _ => .response false none (some "rejected")) ⟨[], []⟩).state).state.copyTrades =
      [⟨1, "FAILED", some "rejected", 0⟩, ⟨1, "FAILED", some "rejected", 0⟩] := by
  norm_num [POST, fanLoop, processFollower, computeFollowerQty, jsOrQ, jsOrI, jsOrStr,
    truthyStr, truthyQ]
  decide

/-- Helper: the seen-set filter only ever drops elements. -/
theorem dedupeGo_sublist : ∀ (ts : List MTrade) (seen : List String),
    List.Sublist (dedupeGo seen ts) ts := by
  intro ts
  induction ts with
  | nil => intro seen; simp [dedupeGo]
  | cons t rest ih =>
    intro seen
    unfold dedupeGo
    by_cases h : t.id ∈ seen
    · rw [if_pos h]
      exact (ih seen).cons t
    · rw [if_neg h]
      exact (ih (t.id :: seen)).cons₂ t

/-- Helper: every element the seen-set filter keeps was not previously
seen, and is the first element of the input carrying its id. -/
theorem dedupeGo_first : ∀ (ts : List MTrade) (seen : List String) (u : MTrade),
    u ∈ dedupeGo seen ts →
      u.id ∉ seen ∧ ts.find? (fun t => t.id == u.id) = some u := by
  intro ts
  induction ts with
  | nil => intro seen u hu; simp [dedupeGo] at hu
  | cons t rest ih =>
    intro seen u hu
    unfold dedupeGo at hu
    by_cases h : t.id ∈ seen
    · rw [if_pos h] at hu
      obtain ⟨hnotseen, hfind⟩ := ih seen u hu
      have hne : (t.id == u.id) = false := by
        simp only [beq_eq_false_iff_ne, ne_eq]
        intro he
        exact hnotseen (he ▸ h)
      refine ⟨hnotseen, ?_⟩
      simp only [List.find?, hne]
      exact hfind
    · rw [if_neg h] at hu
      rcases List.mem_cons.1 hu with rfl | hu2
      · refine ⟨h, ?_⟩
        simp [List.find?]
      · obtain ⟨hnotseen2, hfind⟩ := ih (t.id :: seen) u hu2
        have hne : (t.id == u.id) = false := by
          simp only [beq_eq_false_iff_ne, ne_eq]
          intro he
          exact hnotseen2 (he ▸ List.mem_cons_self t.id seen)
        refine ⟨fun hseen => hnotseen2 (List.mem_cons_of_mem _ hseen), ?_⟩
        simp only [List.find?, hne]
        exact hfind

/-- Helper: the ids kept by the seen-set filter are pairwise distinct. -/
theorem dedupeGo_nodup : ∀ (ts : List MTrade) (seen : List String),
    ((dedupeGo seen ts).map (fun t => t.id)).Nodup := by
  intro ts
  induction ts with
  | nil => intro seen; simp [dedupeGo]
  | cons t rest ih =>
    intro seen
    unfold dedupeGo
    by_cases h : t.id ∈ seen
    · rw [if_pos h]
      exact ih seen
    · rw [if_neg h]
      simp only [List.map_cons, List.nodup_cons]
      refine ⟨?_, ih (t.id :: seen)⟩
      intro hmem
      rcases List.mem_map.1 hmem with ⟨u, hu, hid⟩
      have hns := (dedupeGo_first rest (t.id :: seen) u hu).1
      exact hns (hid ▸ List.mem_cons_self t.id seen)

/-- Helper: every input id survives deduplication (or was already seen). -/
theorem dedupeGo_cover : ∀ (ts : List MTrade) (seen : List String) (t : MTrade),
    t ∈ ts → t.id ∈ seen ∨ ∃ u ∈ dedupeGo seen ts, u.id = t.id := by
  intro ts
  induction ts with
  | nil => intro seen t ht; simp at ht
  | cons a rest ih =>
    intro seen t ht
    unfold dedupeGo
    by_cases h : a.id ∈ seen
    · rw [if_pos h]
      rcases List.mem_cons.1 ht with rfl | ht2
      · exact Or.inl h
      · exact ih seen t ht2
    · rw [if_neg h]
      rcases List.mem_cons.1 ht with rfl | ht2
      · exact Or.inr ⟨t, List.mem_cons_self t _, rfl⟩
      · rcases ih (a.id :: seen) t ht2 with hseen | ⟨u, hu, hid⟩
        · rcases List.mem_cons.1 hseen with heq | hseen2
          · exact Or.inr ⟨a, List.mem_cons_self a _, heq.symm⟩
          · exact Or.inl hseen2
        · exact Or.inr ⟨u, List.mem_cons_of_mem _ hu, hid⟩

/-- C7 counterexample: `getMasterTrades` deduplicates and then returns
the batch as is — two distinct trades arriving oldest-first are returned
oldest-first, so the output is not sorted descending by execution
timestamp as the claim states. -/
theorem getMasterTrades_output_not_sorted :
    dedupeById [⟨"A", "2024-01-01T00:00:00.000Z", 1⟩, ⟨"B", "2024-01-02T00:00:00.000Z", 2⟩] =
      [⟨"A", "2024-01-01T00:00:00.000Z", 1⟩, ⟨"B", "2024-01-02T00:00:00.000Z", 2⟩] ∧
    (jsDateParse 0 "2024-01-01T00:00:00.000Z").getD 0 <
      (jsDateParse 0 "2024-01-02T00:00:00.000Z").getD 0 := by
  constructor
  · decide
  · decide

/-- C7 (amended): `getMasterTrades` deduplicates by identifier keeping
the first occurrence — its output is a subsequence of the batch with
pairwise-distinct ids, every kept trade is the first of its id, and every
input id is represented — but it does not sort; the dashboard pipeline
(`fetchTrades`) does sort descending by execution timestamp, but its
`Map`-based deduplication keeps the last occurrence of each id, not the
first. -/
theorem trade_dedupe_and_order :
    (∀ ts : List MTrade, List.Sublist (dedupeById ts) ts) ∧
    (∀ (ts : List MTrade) (u : MTrade), u ∈ dedupeById ts →
      ts.find? (fun t => t.id == u.id) = some u) ∧
    (∀ ts : List MTrade, ((dedupeById ts).map (fun t => t.id)).Nodup) ∧
    (∀ (ts : List MTrade) (t : MTrade), t ∈ ts → ∃ u ∈ dedupeById ts, u.id = t.id) ∧
    (∀ (timeOf : String → Int) (ts : List MTrade),
      (fetchTradesOrder timeOf ts).Pairwise (fun a b => newerLE timeOf a b = true)) ∧
    mapDedupe [⟨"A", "t1", 1⟩, ⟨"A", "t2", 2⟩] = [⟨"A", "t2", 2⟩] := by
  refine ⟨?_, ?_, ?_, ?_, ?_, ?_⟩
  · intro ts
    exact dedupeGo_sublist ts []
  · intro ts u hu
    exact (dedupeGo_first ts [] u hu).2
  · intro ts
    exact dedupeGo_nodup ts []
  · intro ts t ht
    rcases dedupeGo_cover ts [] t ht with hseen | hex
    · simp at hseen
    · exact hex
  · intro timeOf ts
    unfold fetchTradesOrder
    apply List.sorted_mergeSort
    · intro a b c hab hbc
      simp only [newerLE, decide_eq_true_eq] at hab hbc ⊢
      exact le_trans hbc hab
    · intro a b
      simp only [newerLE]
      rcases le_total (timeOf b.timestamp) (timeOf a.timestamp) with h | h
      · simp [h]
      · simp [h]
  · decide

/-- Witness for C7 (amended): with two records sharing the id `A`,
`getMasterTrades`' filter keeps the first occurrence, which is the first
input record with that id. -/
theorem trade_dedupe_and_order_witness :
    ((⟨"A", "t1", 1⟩ : MTrade) ∈ dedupeById [⟨"A", "t1", 1⟩, ⟨"A", "t2", 2⟩]) ∧
    [(⟨"A", "t1", 1⟩ : MTrade), ⟨"A", "t2", 2⟩].find?
      (fun t => t.id == (⟨"A", "t1", 1⟩ : MTrade).id) = some ⟨"A", "t1", 1⟩ :=
  ⟨by decide,
   trade_dedupe_and_order.2.1 [⟨"A", "t1", 1⟩, ⟨"A", "t2", 2⟩] ⟨"A", "t1", 1⟩ (by decide)⟩
